import Mathlib

/-
Verification of the command-execution core (src/snakemake/shell.py) against
its specification.  The Python class `shell` is shallowly embedded: the
process-wide mutable class attributes become an explicit `ShellState`,
spawning a child process becomes a pure oracle `spawn : String → ProcResult`,
the three environment-activation collaborators (env-modules, conda,
singularity: external modules, used as black boxes by shell.py) become a
record of abstract wrapper functions, and the generator returned in
streaming mode becomes the pair of the full list of items it yields together
with its terminal behaviour once exhausted.  `snakemake.utils.format` is not
part of the sources; it is modelled from the spec (see `substChars`).
-/

namespace Snakemake

/-- Error taxonomy of the core.  `invalidArgument` embeds the
`KeyError("Argument stepout is not allowed in shell command.")` of
`shell.__new__`; `executableNotFound` embeds the `WorkflowError` raised by
`shell.executable` when `shutil.which` fails; `commandFailed` embeds
`subprocess.CalledProcessError(retcode, cmd)`. -/
inductive ShellError where
  | invalidArgument (msg : String)
  | executableNotFound (path : String)
  | commandFailed (retcode : Int) (cmd : String)
deriving DecidableEq, Repr

/-- Result of spawning a process: its pid, final exit code, the lines its
stdout iterator yields (each as Python text-mode iteration yields it, i.e.
normally ending in a newline, except possibly a final unterminated line),
and the full buffer returned by `proc.stdout.read()`. -/
structure ProcResult where
  pid : Nat
  retcode : Int
  lines : List String
  stdoutBuffer : String
deriving DecidableEq, Repr

/-- Operating-system facts consulted by `shell.executable`: whether
`os.name == "posix"` and the `shutil.which` search-path resolver. -/
structure OsEnv where
  posix : Bool
  which : String → Option String

/-- The process registry `shell._processes`: job-id keyed mapping to process
handles (pids).  All registry operations in the source run under one lock;
the embedding is the sequential semantics of the guarded operations. -/
abbrev Registry := List (Nat × Nat)

def registryLookup (r : Registry) (j : Nat) : Option Nat :=
  match r with
  | [] => none
  | (k, v) :: rest => if k = j then some v else registryLookup rest j

def registryErase (r : Registry) (j : Nat) : Registry :=
  r.filter (fun p => !(p.1 == j))

/-- Python dict assignment `cls._processes[jobid] = proc`: overwrites any
prior entry for the same key. -/
def registryInsert (r : Registry) (j : Nat) (pid : Nat) : Registry :=
  (j, pid) :: registryErase r j

/-- The class-level mutable state of `shell`: `_process_prefix`,
`_process_suffix`, `_process_args["executable"]` and `_processes`. -/
structure ShellState where
  processPrefix : String
  processSuffix : String
  executable : Option String
  processes : Registry

/-- The per-invocation execution context: the caller's locals after
`context.update(kwargs)` (line 91), read via `context.get(...)`.  Selector
strings model the Python objects; Python truthiness of a selector is
"present and non-empty" (`truthy`). -/
structure Context where
  jobid : Option Nat
  conda_env : Option String
  container_img : Option String
  env_modules : Option String
  shadow_dir : Option String
  singularity_args : String
  is_shell : Bool

/-- Python truthiness of an optional string selector. -/
def truthy : Option String → Bool
  | none => false
  | some s => !(s == "")

/-- The three environment-activation collaborators, external to this core
(snakemake.deployment).  `env_modules_shellcmd name cmd` embeds
`env_modules.shellcmd(cmd)`; `conda_shellcmd img env cmd` embeds
`Conda(container_img).shellcmd(conda_env, cmd)`; `singularity_shellcmd img
cmd args exe wd` embeds `singularity.shellcmd(container_img, cmd, args,
shell_executable=..., container_workdir=shadow_dir)`. -/
structure Wrappers where
  env_modules_shellcmd : String → String → String
  conda_shellcmd : Option String → String → String → String
  singularity_shellcmd : String → String → String → Option String → Option String → String

def lbraceChar : Char := Char.ofNat 123

def rbraceChar : Char := Char.ofNat 125

/-- Whitespace characters stripped by Python `str.strip()`. -/
def isStripChar (c : Char) : Bool :=
  c == ' ' || c == '\t' || c == '\n' || c == '\r' || c == Char.ofNat 11 || c == Char.ofNat 12

def trimChars (l : List Char) : List Char :=
  ((l.dropWhile isStripChar).reverse.dropWhile isStripChar).reverse

/-- Python `str.strip()`. -/
def strip (s : String) : String := String.mk (trimChars s.data)

/-- Modelled from the spec: `snakemake.utils.format` is not under the
sources; per the spec's Command Formatter contract it substitutes named
placeholders from the binding context.  A placeholder is brace-delimited;
fuel is the input length (each step consumes at least one character). -/
def substCharsAux (b : String → String) : Nat → List Char → List Char
  | _, [] => []
  | 0, rest => rest
  | fuel + 1, c :: rest =>
    if c = lbraceChar then
      let name := rest.takeWhile (fun d => !(d = rbraceChar))
      let rest2 := (rest.dropWhile (fun d => !(d = rbraceChar))).drop 1
      (b (String.mk name)).data ++ substCharsAux b fuel rest2
    else
      c :: substCharsAux b fuel rest

def substChars (b : String → String) (l : List Char) : List Char :=
  substCharsAux b l.length l

/-- Modelled from the spec: placeholder substitution on a string. -/
def substStr (b : String → String) (s : String) : String :=
  String.mk (substChars b s.data)

/-- Modelled from the spec: the binding context is the caller's locals
merged with the explicit keyword arguments, keyword arguments taking
precedence on key collision. -/
def mergeBindings (locals0 kwargs : List (String × String)) : String → String :=
  fun k =>
    match kwargs.lookup k with
    | some v => v
    | none => (locals0.lookup k).getD ""

/-- The `fmt` lambda of `shell.__new__` (line 87): format, then `.strip()`. -/
def fmtOne (b : String → String) (s : String) : String :=
  strip (substStr b s)

/-- Line 107: `"{} {} {}".format(fmt(prefix), fmt(cmd), fmt(suffix))`. -/
def mkBaseCmd (b : String → String) (pre cmd suf : String) : String :=
  fmtOne b pre ++ " " ++ fmtOne b cmd ++ " " ++ fmtOne b suf

/-- A template string containing no placeholder delimiters. -/
def holeFree (s : String) : Bool :=
  s.data.all (fun c => !(c == lbraceChar) && !(c == rbraceChar))

/-- Lines 111-127 of `shell.__new__`: the environment-activation chain:
module activation, then conda activation, then container activation, each
guarded by truthiness of its selector; the container stage receives the
configured shell executable and the `shadow_dir` working-directory
override. -/
def wrapCommand (w : Wrappers) (ctx : Context) (exe : Option String) (cmd0 : String) : String :=
  let cmd1 :=
    if truthy ctx.env_modules then w.env_modules_shellcmd (ctx.env_modules.getD "") cmd0
    else cmd0
  let cmd2 :=
    if truthy ctx.conda_env then w.conda_shellcmd ctx.container_img (ctx.conda_env.getD "") cmd1
    else cmd1
  if truthy ctx.container_img then
    w.singularity_shellcmd (ctx.container_img.getD "") cmd2 ctx.singularity_args exe ctx.shadow_dir
  else cmd2

/-- The fail-fast directive appended by `shell.executable` (line 59). -/
def failFastDirective : String := "set -euo pipefail; "

/-- Python `os.path.split(p)[-1]`: the part after the last slash. -/
def basename (p : String) : String :=
  String.mk ((p.data.reverse.takeWhile (fun c => !(c = '/'))).reverse)

/-- Python `os.path.isabs` on a POSIX path. -/
def isAbs (p : String) : Bool :=
  match p.data with
  | [] => false
  | c :: _ => c = '/'

/-- Classmethod `shell.executable` (lines 47-60, the `set_executable`
operation of the spec): on posix with a non-absolute path, resolve via
`shutil.which`, raising on failure; if the basename of the stored command is
"bash", extend `_process_prefix` with the fail-fast directive (the source
does `_process_prefix += directive`); finally store the executable. -/
def executable (env : OsEnv) (st : ShellState) (cmd : String) : Except ShellError ShellState :=
  let resolved : Except ShellError String :=
    if env.posix && !(isAbs cmd) then
      match env.which cmd with
      | none => .error (.executableNotFound cmd)
      | some c => .ok c
    else
      .ok cmd
  match resolved with
  | .error e => .error e
  | .ok c =>
    let st1 :=
      if basename c == "bash" then
        { st with processPrefix := st.processPrefix ++ failFastDirective }
      else st
    .ok { st1 with executable := some c }

/-- Outcome of `shell.kill`: the registry afterwards, and the pid that
received the termination signal (`proc.kill()`), if any. -/
structure KillOut where
  processes : Registry
  signaled : Option Nat
deriving DecidableEq, Repr

/-- Classmethod `shell.kill` (lines 70-75): under the lock, if the job-id is
registered, signal its handle and delete the entry; otherwise do nothing. -/
def kill (reg : Registry) (jobid : Nat) : KillOut :=
  match registryLookup reg jobid with
  | some pid => { processes := registryErase reg jobid, signaled := some pid }
  | none => { processes := reg, signaled := none }

/-- Classmethod `shell.cleanup` (lines 77-80): clear the registry without
signaling any process. -/
def cleanup (_reg : Registry) : Registry := []

/-- The behaviour of the generator returned in streaming mode: the items it
yields in order, and what happens after the last item is consumed (`fin`):
normal exhaustion, or a raised `CommandFailed`. -/
structure StreamRes where
  items : List String
  fin : Except ShellError Unit
deriving Repr

/-- Staticmethod `shell.iter_stdout` (lines 166-172): yield `l[:-1]` for
each line of the process's stdout, then `proc.wait()` and raise
`CalledProcessError(retcode, cmd)` if the exit code is non-zero. -/
def iter_stdout (proc : ProcResult) (cmd : String) : StreamRes :=
  { items := proc.lines.map (fun l => String.mk l.data.dropLast),
    fin :=
      if proc.retcode == 0 then .ok ()
      else .error (.commandFailed proc.retcode cmd) }

/-- Follows the SPEC's words, for comparison with `iter_stdout`: an output
item is the line with its trailing line terminator stripped. -/
def stripTerminatorSpec (l : String) : String :=
  if l.data.getLast? = some '\n' then String.mk l.data.dropLast else l

/-- The final command string built by `shell.__new__`: format prefix,
template and suffix (lines 87, 107-109), then apply the activation chain
(lines 111-127). -/
def finalCommand (w : Wrappers) (st : ShellState) (ctx : Context)
    (locals0 kwargs : List (String × String)) (cmd : String) : String :=
  wrapCommand w ctx st.executable
    (mkBaseCmd (mergeBindings locals0 kwargs) st.processPrefix cmd st.processSuffix)

/-- What `shell.__new__` returns on success: the streaming generator
(`iterable=True`), or a value: the captured buffer (`read=True`) or
nothing. -/
inductive RunVal where
  | streamed (s : StreamRes)
  | value (v : Option String)
deriving Repr

/-- Observable outcome of one `shell.__new__` invocation: the returned
value or raised error, whether a child process was spawned, the final
command text passed to `Popen`, the registry as it stands right after the
registration step (line 141-143), the registry when the invocation returns
or raises, and whether the `benchmarked` sampling context was entered. -/
structure RunOut where
  ret : Except ShellError RunVal
  spawned : Bool
  cmdText : Option String
  registryAfterSpawn : Registry
  finalRegistry : Registry
  benchAcquired : Bool

/-- `shell.__new__` (lines 82-164).  Transliteration: reject a user-supplied
`stepout` keyword before any side effect; build the formatted, wrapped
command; spawn; register the handle when a job-id is present; in streaming
mode return `iter_stdout` immediately (the registry entry is left as
registered); otherwise optionally read stdout, wait (inside `benchmarked`
when a bench record is supplied), deregister, and raise `CalledProcessError`
on a non-zero exit code or return the captured value. -/
def run (spawn : String → ProcResult) (w : Wrappers) (st : ShellState) (ctx : Context)
    (locals0 kwargs : List (String × String)) (cmd : String)
    (iterable read : Bool) (bench_record : Option Nat) : RunOut :=
  if kwargs.any (fun p => p.1 == "stepout") then
    { ret := .error (.invalidArgument "Argument stepout is not allowed in shell command."),
      spawned := false, cmdText := none,
      registryAfterSpawn := st.processes, finalRegistry := st.processes,
      benchAcquired := false }
  else
    let full := finalCommand w st ctx locals0 kwargs cmd
    let proc := spawn full
    let reg1 :=
      match ctx.jobid with
      | some j => registryInsert st.processes j proc.pid
      | none => st.processes
    if iterable then
      { ret := .ok (.streamed (iter_stdout proc full)),
        spawned := true, cmdText := some full,
        registryAfterSpawn := reg1, finalRegistry := reg1,
        benchAcquired := false }
    else
      let ret0 : Option String := if read then some proc.stdoutBuffer else none
      let reg2 :=
        match ctx.jobid with
        | some j => registryErase reg1 j
        | none => reg1
      { ret :=
          if proc.retcode == 0 then .ok (.value ret0)
          else .error (.commandFailed proc.retcode full),
        spawned := true, cmdText := some full,
        registryAfterSpawn := reg1, finalRegistry := reg2,
        benchAcquired := bench_record.isSome }

/-- Number of occurrences of `pat` as a substring of `s` (by start index). -/
def countSub (pat s : String) : Nat :=
  ((List.range (s.data.length + 1)).filter (fun i => pat.data.isPrefixOf (s.data.drop i))).length

/-- Follows the SPEC's words: stage (1), environment-module activation,
applied iff its selector is present and non-empty. -/
def specStageModules (w : Wrappers) (ctx : Context) (c : String) : String :=
  if truthy ctx.env_modules then w.env_modules_shellcmd (ctx.env_modules.getD "") c else c

/-- Follows the SPEC's words: stage (2), package-environment activation,
applied iff its selector is present and non-empty. -/
def specStageConda (w : Wrappers) (ctx : Context) (c : String) : String :=
  if truthy ctx.conda_env then w.conda_shellcmd ctx.container_img (ctx.conda_env.getD "") c else c

/-- Follows the SPEC's words: stage (3), container activation, applied iff
its selector is present and non-empty; it receives the shell executable and
the optional working-directory override. -/
def specStageContainer (w : Wrappers) (ctx : Context) (exe : Option String) (c : String) : String :=
  if truthy ctx.container_img then
    w.singularity_shellcmd (ctx.container_img.getD "") c ctx.singularity_args exe ctx.shadow_dir
  else c

/- Concrete sample data used by witnesses and counterexamples. -/

def envWhichSh : OsEnv :=
  { posix := true, which := fun s => if s == "sh" then some "/bin/sh" else none }

def stStart : ShellState :=
  { processPrefix := "", processSuffix := "", executable := some "/bin/bash", processes := [] }

def stEcho : ShellState :=
  { processPrefix := "echo hi; ", processSuffix := "", executable := some "/bin/bash",
    processes := [] }

def ctxPlain : Context :=
  { jobid := none, conda_env := none, container_img := none, env_modules := none,
    shadow_dir := none, singularity_args := "", is_shell := false }

def ctxJob1 : Context :=
  { ctxPlain with jobid := some 1 }

def ctxFull : Context :=
  { jobid := none, conda_env := some "envA", container_img := some "imgB",
    env_modules := some "modC", shadow_dir := some "/tmp/shadow", singularity_args := "-B /x",
    is_shell := false }

def wSample : Wrappers :=
  { env_modules_shellcmd := fun m c => "module load " ++ m ++ "; " ++ c,
    conda_shellcmd := fun _ e c => "conda activate " ++ e ++ "; " ++ c,
    singularity_shellcmd := fun i c a e wd =>
      "sing " ++ i ++ " " ++ a ++ " " ++ e.getD "-" ++ " " ++ wd.getD "-" ++ " : " ++ c }

def spawnOk : String → ProcResult :=
  fun _ => { pid := 42, retcode := 0, lines := ["x\n"], stdoutBuffer := "x\n" }

def spawnFail : String → ProcResult :=
  fun _ => { pid := 43, retcode := 1, lines := [], stdoutBuffer := "" }

def procThree : ProcResult :=
  { pid := 7, retcode := 0, lines := ["a\n", "b\n", "abc"], stdoutBuffer := "a\nb\nabc" }

def procTerm : ProcResult :=
  { pid := 3, retcode := 2, lines := ["x\n", "y\n"], stdoutBuffer := "x\ny\n" }

/- Shared helper lemmas. -/

theorem registryLookup_erase_self (r : Registry) (j : Nat) :
    registryLookup (registryErase r j) j = none := by
  induction r with
  | nil => rfl
  | cons p r ih =>
    obtain ⟨k, v⟩ := p
    by_cases h : k = j
    · simpa [registryErase, List.filter_cons, h] using ih
    · simpa [registryErase, registryLookup, List.filter_cons, h] using ih

theorem registryLookup_insert_self (r : Registry) (j : Nat) (pid : Nat) :
    registryLookup (registryInsert r j pid) j = some pid := by
  simp [registryLookup, registryInsert]

theorem substCharsAux_hole_free (b : String → String) :
    ∀ (fuel : Nat) (l : List Char), (∀ c ∈ l, ¬c = lbraceChar) →
      substCharsAux b fuel l = l := by
  intro fuel
  induction fuel with
  | zero => intro l _; cases l <;> rfl
  | succ n ih =>
    intro l h
    cases l with
    | nil => rfl
    | cons c rest =>
      have hc : ¬c = lbraceChar := h c (by simp)
      simp only [substCharsAux, if_neg hc]
      rw [ih rest (fun d hd => h d (List.mem_cons_of_mem _ hd))]

theorem substStr_hole_free (b : String → String) (s : String) (h : holeFree s = true) :
    substStr b s = s := by
  have h2 : ∀ c ∈ s.data, ¬c = lbraceChar := by
    intro c hc hceq
    have hall := (List.all_eq_true.mp h) c hc
    rw [hceq] at hall
    simp at hall
  rw [substStr, substChars, substCharsAux_hole_free b _ _ h2]

/-- C2 is false of the code: `shell.executable` does `_process_prefix +=
directive`, so the directive is appended (not prepended) to the prior
prefix and a second bash-named call adds a second copy: after two calls on
an initially empty prefix the directive occurs twice, not exactly once. -/
theorem C2_counterexample :
    executable envWhichSh stStart "/bin/bash"
      = .ok { processPrefix := failFastDirective, processSuffix := "",
              executable := some "/bin/bash", processes := [] }
    ∧ executable envWhichSh
        { processPrefix := failFastDirective, processSuffix := "",
          executable := some "/bin/bash", processes := [] } "/bin/bash"
      = .ok { processPrefix := failFastDirective ++ failFastDirective, processSuffix := "",
              executable := some "/bin/bash", processes := [] }
    ∧ countSub failFastDirective (failFastDirective ++ failFastDirective) = 2
    ∧ ¬countSub failFastDirective (failFastDirective ++ failFastDirective) = 1
    ∧ executable envWhichSh stEcho "/bin/bash"
      = .ok { processPrefix := "echo hi; " ++ failFastDirective, processSuffix := "",
              executable := some "/bin/bash", processes := [] }
    ∧ ¬"echo hi; " ++ failFastDirective = failFastDirective ++ "echo hi; " :=
  ⟨rfl, rfl, by decide, by decide, rfl, by decide⟩

/-- C2 (amended): when `set_executable` stores a bash-named path, the new
prefix is the prior prefix with the fail-fast directive appended, so each
bash-named call contributes exactly one additional copy of the directive
(two calls yield two copies) rather than the directive appearing exactly
once. -/
theorem C2_bash_appends_directive (env : OsEnv) (st : ShellState) (cmd : String)
    (habs : isAbs cmd = true) (hb : basename cmd = "bash") :
    executable env st cmd
      = .ok { st with
              processPrefix := st.processPrefix ++ failFastDirective,
              executable := some cmd } := by
  have hcond : (env.posix && !isAbs cmd) = false := by simp [habs]
  have hbeq : (basename cmd == "bash") = true := by simp [hb]
  simp [executable, hcond, hbeq]

/-- C2 witness: a concrete bash-named call appending the directive. -/
theorem C2_bash_appends_directive_witness :
    executable envWhichSh stEcho "/bin/bash"
      = .ok { stEcho with
              processPrefix := stEcho.processPrefix ++ failFastDirective,
              executable := some "/bin/bash" } :=
  C2_bash_appends_directive envWhichSh stEcho "/bin/bash" (by decide) (by decide)

/-- C3: a user-supplied `stepout` keyword makes `run` fail with the
`InvalidArgument` error (the source's `KeyError`) before any side effect:
no process is spawned and the registry is untouched. -/
theorem C3_stepout_rejected (spawn : String → ProcResult) (w : Wrappers) (st : ShellState)
    (ctx : Context) (locals0 kwargs : List (String × String)) (cmd : String)
    (iterable read : Bool) (bench : Option Nat) (v : String)
    (hk : ("stepout", v) ∈ kwargs) :
    (run spawn w st ctx locals0 kwargs cmd iterable read bench).ret
        = .error (.invalidArgument "Argument stepout is not allowed in shell command.")
    ∧ (run spawn w st ctx locals0 kwargs cmd iterable read bench).spawned = false
    ∧ (run spawn w st ctx locals0 kwargs cmd iterable read bench).registryAfterSpawn
        = st.processes
    ∧ (run spawn w st ctx locals0 kwargs cmd iterable read bench).finalRegistry
        = st.processes := by
  have h : kwargs.any (fun p => p.1 == "stepout") = true :=
    List.any_eq_true.mpr ⟨("stepout", v), hk, by simp⟩
  simp [run, h]

/-- C3 witness: a concrete invocation carrying `stepout`. -/
theorem C3_stepout_rejected_witness :
    (run spawnOk wSample stStart ctxJob1 [] [("stepout", "2")] "echo" false false none).ret
        = .error (.invalidArgument "Argument stepout is not allowed in shell command.")
    ∧ (run spawnOk wSample stStart ctxJob1 [] [("stepout", "2")] "echo" false false none).spawned
        = false
    ∧ (run spawnOk wSample stStart ctxJob1 [] [("stepout", "2")] "echo" false false none).registryAfterSpawn
        = stStart.processes
    ∧ (run spawnOk wSample stStart ctxJob1 [] [("stepout", "2")] "echo" false false none).finalRegistry
        = stStart.processes :=
  C3_stepout_rejected spawnOk wSample stStart ctxJob1 [] [("stepout", "2")] "echo"
    false false none "2" (by simp)

/-- C4: `kill` signals and deregisters a registered job-id, and is a silent
no-op — registry unchanged, nothing signaled, no error — for an unknown
job-id. -/
theorem C4_kill_semantics (reg : Registry) (j : Nat) :
    (∀ pid, registryLookup reg j = some pid →
      (kill reg j).signaled = some pid
        ∧ (kill reg j).processes = registryErase reg j
        ∧ registryLookup (kill reg j).processes j = none)
    ∧ (registryLookup reg j = none →
        kill reg j = { processes := reg, signaled := none }) := by
  constructor
  · intro pid h
    refine ⟨by simp [kill, h], by simp [kill, h], ?_⟩
    simp only [kill, h]
    exact registryLookup_erase_self reg j
  · intro h
    simp [kill, h]

/-- C4 witness: kill on a registered and on an unknown job-id. -/
theorem C4_kill_semantics_witness :
    ((kill [(1, 5), (2, 7)] 1).signaled = some 5
      ∧ (kill [(1, 5), (2, 7)] 1).processes = registryErase [(1, 5), (2, 7)] 1
      ∧ registryLookup (kill [(1, 5), (2, 7)] 1).processes 1 = none)
    ∧ kill [(1, 5), (2, 7)] 9 = { processes := [(1, 5), (2, 7)], signaled := none } :=
  ⟨(C4_kill_semantics [(1, 5), (2, 7)] 1).1 5 (by decide),
   (C4_kill_semantics [(1, 5), (2, 7)] 9).2 (by decide)⟩

/-- C5: on a POSIX-like system with a non-absolute path, `set_executable`
fails with `ExecutableNotFound` when search-path resolution fails; on
success it stores the resolved path — absolute whenever the resolver
returns absolute paths — as the active executable. -/
theorem C5_executable_resolution (env : OsEnv) (st : ShellState) (cmd : String)
    (hp : env.posix = true) (hna : isAbs cmd = false) :
    (env.which cmd = none →
      executable env st cmd = .error (.executableNotFound cmd))
    ∧ (∀ p, env.which cmd = some p →
        ∃ st2, executable env st cmd = .ok st2 ∧ st2.executable = some p
          ∧ ((∀ q r, env.which q = some r → isAbs r = true) → isAbs p = true)) := by
  have hcond : (env.posix && !isAbs cmd) = true := by simp [hp, hna]
  constructor
  · intro hn
    simp [executable, hcond, hn]
  · intro p hpp
    by_cases hb : (basename p == "bash") = true
    · refine ⟨{ st with
                processPrefix := st.processPrefix ++ failFastDirective,
                executable := some p }, ?_, rfl, fun hw => hw cmd p hpp⟩
      simp [executable, hcond, hpp, hb]
    · refine ⟨{ st with executable := some p }, ?_, rfl, fun hw => hw cmd p hpp⟩
      simp [executable, hcond, hpp, hb]

/-- C5 witness: a failing and a succeeding concrete resolution. -/
theorem C5_executable_resolution_witness :
    executable envWhichSh stStart "zsh" = .error (.executableNotFound "zsh")
    ∧ ∃ st2, executable envWhichSh stStart "sh" = .ok st2
        ∧ st2.executable = some "/bin/sh" ∧ isAbs "/bin/sh" = true := by
  constructor
  · exact (C5_executable_resolution envWhichSh stStart "zsh" rfl rfl).1 rfl
  · have hw : ∀ q r, envWhichSh.which q = some r → isAbs r = true := by
      intro q r h
      have h2 : (if (q == "sh") = true then some "/bin/sh" else none) = some r := h
      split at h2
      · cases h2
        decide
      · simp at h2
    obtain ⟨st2, h1, h2, h3⟩ :=
      (C5_executable_resolution envWhichSh stStart "sh" rfl rfl).2 "/bin/sh" rfl
    exact ⟨st2, h1, h2, h3 hw⟩

/-- C6: each environment-activation stage is applied iff its selector is
present and non-empty, in the fixed order module activation, then
package-environment activation, then container activation, the container
stage receiving the already-conda-wrapped command together with the
configured shell executable and the working-directory override: the
source's activation chain coincides with the spec's staged composition. -/
theorem C6_activation_chain (w : Wrappers) (ctx : Context) (exe : Option String) (c : String) :
    wrapCommand w ctx exe c
      = specStageContainer w ctx exe (specStageConda w ctx (specStageModules w ctx c)) := rfl

/-- C7: the base command is the formatted prefix, formatted template and
formatted suffix joined by single spaces, the same formatter applied to
each with explicit keyword arguments taking precedence over caller locals;
a placeholder-free template formats to itself stripped of surrounding
whitespace. -/
theorem C7_base_command (locals0 kwargs : List (String × String)) (pre suf t : String) :
    mkBaseCmd (mergeBindings locals0 kwargs) pre t suf
      = fmtOne (mergeBindings locals0 kwargs) pre ++ " "
        ++ fmtOne (mergeBindings locals0 kwargs) t ++ " "
        ++ fmtOne (mergeBindings locals0 kwargs) suf
    ∧ (∀ k v, kwargs.lookup k = some v → mergeBindings locals0 kwargs k = v)
    ∧ (holeFree t = true → fmtOne (mergeBindings locals0 kwargs) t = strip t) := by
  refine ⟨rfl, ?_, ?_⟩
  · intro k v hv
    simp [mergeBindings, hv]
  · intro h
    rw [fmtOne, substStr_hole_free _ _ h]

/-- C7 witness: concrete precedence and a concrete placeholder-free
template. -/
theorem C7_base_command_witness :
    mergeBindings [("x", "1")] [("x", "2")] "x" = "2"
    ∧ fmtOne (mergeBindings [("x", "1")] [("x", "2")]) " cmd " = strip " cmd " :=
  ⟨(C7_base_command [("x", "1")] [("x", "2")] "p" "s" " cmd ").2.1 "x" "2" (by decide),
   (C7_base_command [("x", "1")] [("x", "2")] "p" "s" " cmd ").2.2 (by decide)⟩

/-- C8: in capture and fire-and-forget modes `run` fails with
`CommandFailed` carrying the exit code and the exact final command text iff
the exit code is non-zero, the job-id (when present) having been removed
from the registry first; on exit code zero it returns the captured buffer
in capture mode and nothing in fire-and-forget mode. -/
theorem C8_capture_and_fire (spawn : String → ProcResult) (w : Wrappers) (st : ShellState)
    (ctx : Context) (locals0 kwargs : List (String × String)) (cmd : String)
    (read : Bool) (bench : Option Nat)
    (hns : kwargs.any (fun p => p.1 == "stepout") = false) :
    (¬(spawn (finalCommand w st ctx locals0 kwargs cmd)).retcode = 0 →
      (run spawn w st ctx locals0 kwargs cmd false read bench).ret
        = .error (.commandFailed (spawn (finalCommand w st ctx locals0 kwargs cmd)).retcode
            (finalCommand w st ctx locals0 kwargs cmd)))
    ∧ ((spawn (finalCommand w st ctx locals0 kwargs cmd)).retcode = 0 →
      (run spawn w st ctx locals0 kwargs cmd false read bench).ret
        = .ok (.value
            (if read then some (spawn (finalCommand w st ctx locals0 kwargs cmd)).stdoutBuffer
             else none)))
    ∧ (∀ j, ctx.jobid = some j →
        registryLookup (run spawn w st ctx locals0 kwargs cmd false read bench).finalRegistry j
          = none) := by
  refine ⟨?_, ?_, ?_⟩
  · intro h
    simp [run, hns, h]
  · intro h
    simp [run, hns, h]
  · intro j hj
    simp [run, hns, hj, registryLookup_erase_self]

/-- C8 witness: a concrete failing run, a concrete capture, and the
deregistered registry at failure. -/
theorem C8_capture_and_fire_witness :
    (run spawnFail wSample stStart ctxJob1 [] [] "boom" false false none).ret
        = .error (.commandFailed 1 (finalCommand wSample stStart ctxJob1 [] [] "boom"))
    ∧ (run spawnOk wSample stStart ctxJob1 [] [] "ok" false true none).ret
        = .ok (.value (some "x\n"))
    ∧ registryLookup
        (run spawnFail wSample stStart ctxJob1 [] [] "boom" false false none).finalRegistry 1
        = none := by
  refine ⟨?_, ?_, ?_⟩
  · exact (C8_capture_and_fire spawnFail wSample stStart ctxJob1 [] [] "boom" false none
      (by decide)).1 (by decide)
  · have h := (C8_capture_and_fire spawnOk wSample stStart ctxJob1 [] [] "ok" true none
      (by decide)).2.1 (by decide)
    simpa using h
  · exact (C8_capture_and_fire spawnFail wSample stStart ctxJob1 [] [] "boom" false none
      (by decide)).2.2 1 rfl

/-- C9 is false of the code as stated: `iter_stdout` yields `l[:-1]`, which
removes the final character of every line even when the line carries no
trailing terminator; on stdout lines "a\n", "b\n", "abc" it yields
"a", "b", "ab" where terminator-stripping would yield "a", "b", "abc". -/
theorem C9_counterexample :
    (iter_stdout procThree "c").items = ["a", "b", "ab"]
    ∧ procThree.lines.map stripTerminatorSpec = ["a", "b", "abc"]
    ∧ ¬(iter_stdout procThree "c").items = procThree.lines.map stripTerminatorSpec :=
  ⟨by decide, by decide, by decide⟩

/-- C9 (amended): the streaming sequence yields exactly one item per line of
standard output, each item being the line with its final character removed
— which coincides with stripping the trailing terminator whenever every
line ends with one — and, once the sequence is exhausted, it waits and
raises `CommandFailed` carrying the exit code and the command text iff the
exit code is non-zero; `run` in streaming mode returns exactly this
sequence. -/
theorem C9_streaming_lines (spawn : String → ProcResult) (w : Wrappers) (st : ShellState)
    (ctx : Context) (locals0 kwargs : List (String × String)) (cmd : String)
    (read : Bool) (bench : Option Nat) (proc : ProcResult) (c : String)
    (hns : kwargs.any (fun p => p.1 == "stepout") = false)
    (hterm : ∀ l ∈ proc.lines, l.data.getLast? = some '\n') :
    (iter_stdout proc c).items.length = proc.lines.length
    ∧ (iter_stdout proc c).items = proc.lines.map stripTerminatorSpec
    ∧ (proc.retcode = 0 → (iter_stdout proc c).fin = .ok ())
    ∧ (¬proc.retcode = 0 →
        (iter_stdout proc c).fin = .error (.commandFailed proc.retcode c))
    ∧ (run spawn w st ctx locals0 kwargs cmd true read bench).ret
      = .ok (.streamed (iter_stdout (spawn (finalCommand w st ctx locals0 kwargs cmd))
          (finalCommand w st ctx locals0 kwargs cmd))) := by
  refine ⟨by simp [iter_stdout], ?_, ?_, ?_, ?_⟩
  · apply List.map_congr_left
    intro a ha
    rw [stripTerminatorSpec, if_pos (hterm a ha)]
  · intro h
    simp [iter_stdout, h]
  · intro h
    simp [iter_stdout, h]
  · simp [run, hns]

/-- C9 witness: a concrete two-line failing stream. -/
theorem C9_streaming_lines_witness :
    (iter_stdout procTerm "c").items.length = procTerm.lines.length
    ∧ (iter_stdout procTerm "c").items = procTerm.lines.map stripTerminatorSpec
    ∧ (iter_stdout procTerm "c").fin = .error (.commandFailed 2 "c")
    ∧ (run spawnOk wSample stStart ctxJob1 [] [] "c" true false none).ret
      = .ok (.streamed (iter_stdout (spawnOk (finalCommand wSample stStart ctxJob1 [] [] "c"))
          (finalCommand wSample stStart ctxJob1 [] [] "c"))) := by
  have h := C9_streaming_lines spawnOk wSample stStart ctxJob1 [] [] "c" false none
    procTerm "c" (by decide) (by decide)
  exact ⟨h.1, h.2.1, h.2.2.2.1 (by decide), h.2.2.2.2⟩

/-- C10: with `iterable=true`, streaming takes precedence over `read`: the
whole observable outcome is identical for every value of `read` and of
`bench_record`, the returned value is the lazy line sequence over the spawned
process's stdout, and the benchmark sampling context is never entered. -/
theorem C10_iterable_precedence (spawn : String → ProcResult) (w : Wrappers) (st : ShellState)
    (ctx : Context) (locals0 kwargs : List (String × String)) (cmd : String)
    (read read2 : Bool) (bench bench2 : Option Nat) :
    run spawn w st ctx locals0 kwargs cmd true read bench
      = run spawn w st ctx locals0 kwargs cmd true read2 bench2
    ∧ (kwargs.any (fun p => p.1 == "stepout") = false →
        (run spawn w st ctx locals0 kwargs cmd true read bench).ret
          = .ok (.streamed (iter_stdout (spawn (finalCommand w st ctx locals0 kwargs cmd))
              (finalCommand w st ctx locals0 kwargs cmd)))
        ∧ (run spawn w st ctx locals0 kwargs cmd true read bench).benchAcquired = false) := by
  constructor
  · by_cases h : kwargs.any (fun p => p.1 == "stepout") = true <;> simp [run, h]
  · intro hns
    exact ⟨by simp [run, hns], by simp [run, hns]⟩

/-- C10 witness: `iterable=true, read=true` with a bench record behaves as
`iterable=true, read=false` without one. -/
theorem C10_iterable_precedence_witness :
    run spawnOk wSample stStart ctxJob1 [] [] "c" true true (some 9)
      = run spawnOk wSample stStart ctxJob1 [] [] "c" true false none
    ∧ (run spawnOk wSample stStart ctxJob1 [] [] "c" true true (some 9)).ret
      = .ok (.streamed (iter_stdout (spawnOk (finalCommand wSample stStart ctxJob1 [] [] "c"))
          (finalCommand wSample stStart ctxJob1 [] [] "c")))
    ∧ (run spawnOk wSample stStart ctxJob1 [] [] "c" true true (some 9)).benchAcquired = false := by
  have h := C10_iterable_precedence spawnOk wSample stStart ctxJob1 [] [] "c"
    true false (some 9) none
  exact ⟨h.1, (h.2 (by decide)).1, (h.2 (by decide)).2⟩

/-- C1 is false of the code in streaming mode: `shell.__new__` returns the
generator while the job-id is still registered (line 147 precedes the
deregistration at lines 158-160, which streaming never reaches), and
`iter_stdout` never touches the registry, so the entry survives the full
consumption of the returned sequence. -/
theorem C1_counterexample :
    (run spawnOk wSample stStart ctxJob1 [] [] "c" true false none).ret
      = .ok (.streamed { items := ["x"], fin := .ok () })
    ∧ (run spawnOk wSample stStart ctxJob1 [] [] "c" true false none).finalRegistry = [(1, 42)]
    ∧ ¬registryLookup
        (run spawnOk wSample stStart ctxJob1 [] [] "c" true false none).finalRegistry 1
        = none :=
  ⟨rfl, rfl, by decide⟩

/-- C1 (amended): in capture and fire-and-forget modes a job-id absent
before `run` is registered during execution and absent again when `run`
returns or raises; in streaming mode, however, the entry is still
registered when `run` returns, and consuming the returned sequence never
removes it. -/
theorem C1_registry_lifecycle (spawn : String → ProcResult) (w : Wrappers) (st : ShellState)
    (ctx : Context) (locals0 kwargs : List (String × String)) (cmd : String)
    (read : Bool) (bench : Option Nat) (j : Nat)
    (hns : kwargs.any (fun p => p.1 == "stepout") = false)
    (hj : ctx.jobid = some j)
    (_hpre : registryLookup st.processes j = none) :
    registryLookup (run spawn w st ctx locals0 kwargs cmd false read bench).registryAfterSpawn j
      = some (spawn (finalCommand w st ctx locals0 kwargs cmd)).pid
    ∧ registryLookup (run spawn w st ctx locals0 kwargs cmd false read bench).finalRegistry j
      = none
    ∧ registryLookup (run spawn w st ctx locals0 kwargs cmd true read bench).finalRegistry j
      = some (spawn (finalCommand w st ctx locals0 kwargs cmd)).pid := by
  refine ⟨?_, ?_, ?_⟩
  · simp [run, hns, hj, registryLookup_insert_self]
  · simp [run, hns, hj, registryLookup_erase_self]
  · simp [run, hns, hj, registryLookup_insert_self]

/-- C1 witness: a concrete job-id registered during execution, gone after a
blocking run, still present after a streaming run. -/
theorem C1_registry_lifecycle_witness :
    registryLookup
        (run spawnOk wSample stStart ctxJob1 [] [] "c" false false none).registryAfterSpawn 1
      = some (spawnOk (finalCommand wSample stStart ctxJob1 [] [] "c")).pid
    ∧ registryLookup
        (run spawnOk wSample stStart ctxJob1 [] [] "c" false false none).finalRegistry 1
      = none
    ∧ registryLookup
        (run spawnOk wSample stStart ctxJob1 [] [] "c" true false none).finalRegistry 1
      = some (spawnOk (finalCommand wSample stStart ctxJob1 [] [] "c")).pid :=
  C1_registry_lifecycle spawnOk wSample stStart ctxJob1 [] [] "c" false none 1
    (by decide) rfl (by decide)

end Snakemake
